import Mathlib

/-!
Verification of the image-generation job client and upload resolver of
`visualdna_to_listing` (files `tools/hunyuan_image.py`, `image_uploader.py`,
`tools/my_file_read_tool.py`), shallowly embedded in Lean 4.

Remote services (the job API, the upload backends, the filesystem) are
modelled as explicit oracle parameters; the Python code's use of string
truthiness (`x or y`, `if not x`) is modelled by the `py*` helpers below.
-/

set_option maxRecDepth 4000

/-- Python truthiness of an optional string: `None` and `""` are falsy. -/
def pyTruthyOptStr : Option String → Bool
  | none => false
  | some s => !s.isEmpty

/-- Python `x or d` for an optional string `x` and a string default `d`:
the default is used when `x` is falsy (`None` or empty). -/
def pyOrStr (x : Option String) (d : String) : String :=
  match x with
  | none => d
  | some s => if s.isEmpty then d else s

/-- Python `x or None` for an optional string: collapses a falsy value to `None`. -/
def pyOrNone (x : Option String) : Option String :=
  match x with
  | none => none
  | some s => if s.isEmpty then none else some s

/-- Python `x or []` for an optional list. -/
def pyOrList (x : Option (List String)) : List String :=
  match x with
  | none => []
  | some l => l

/-- Python `str()` of an `Optional[str]` as interpolated by an f-string:
`None` prints as `"None"`. -/
def pyStrOfOpt : Option String → String
  | none => "None"
  | some s => s

/-- Result snapshot of one remote job poll (`ImageGenerationResult` dataclass
in `tools/hunyuan_image.py`). -/
structure ImageGenerationResult where
  job_id : String
  status_code : String
  status_msg : String
  image_urls : List String
  error_code : Option String := none
  error_msg : Option String := none
  result_details : Option (List String) := none
  revised_prompt : Option (List String) := none
  request_id : Option String := none
deriving DecidableEq, Repr

/-- The `is_completed` property: status code `"5"`. -/
def ImageGenerationResult.is_completed (r : ImageGenerationResult) : Bool :=
  r.status_code == "5"

/-- The `is_failed` property: status code `"4"`. -/
def ImageGenerationResult.is_failed (r : ImageGenerationResult) : Bool :=
  r.status_code == "4"

/-- The `is_processing` property: status code `"2"`. -/
def ImageGenerationResult.is_processing (r : ImageGenerationResult) : Bool :=
  r.status_code == "2"

/-- The `is_waiting` property: status code `"1"`. -/
def ImageGenerationResult.is_waiting (r : ImageGenerationResult) : Bool :=
  r.status_code == "1"

deriving instance DecidableEq for Except

/-- Outcome of one run of the polling loop of `generate_image_intern`:
the returned result or raised exception message, together with how many
`query_job` calls and how many `time.sleep` calls were made. -/
structure GenRun where
  outcome : Except String ImageGenerationResult
  polls : Nat
  sleeps : Nat
deriving DecidableEq, Repr

/-- The polling loop of `HunyuanImageClient.generate_image_intern`
(`for i in range(max_retries)` in `tools/hunyuan_image.py`), with the
successive `query_job` results supplied by the oracle `query` (the `i`-th
poll observes `query i`).  On a completed result (`is_completed`) it is
returned at once; on a failed result (`is_failed`) an exception carrying the
remote error code and message is raised at once; otherwise the loop sleeps
`poll_interval` seconds and polls again; exhausting the loop raises a
timeout exception naming the job id. -/
def pollLoop (query : Nat → ImageGenerationResult) (job_id : String) :
    Nat → Nat → GenRun
  | _, 0 => ⟨Except.error ("等待任务完成超时，JobId: " ++ job_id), 0, 0⟩
  | i, fuel + 1 =>
    let result := query i
    if result.is_completed then
      ⟨Except.ok result, 1, 0⟩
    else if result.is_failed then
      ⟨Except.error ("任务处理失败: " ++ pyStrOfOpt result.error_code ++ " - " ++
        pyStrOfOpt result.error_msg), 1, 0⟩
    else
      let rest := pollLoop query job_id (i + 1) fuel
      ⟨rest.outcome, rest.polls + 1, rest.sleeps + 1⟩

/-- `HunyuanImageClient.generate_image_intern`, from the point where
`submit_job` has returned `job_id`: the polling loop run from poll index 0
with `max_retries` iterations allowed. -/
def generate_image_intern (job_id : String) (query : Nat → ImageGenerationResult)
    (max_retries : Nat) : GenRun :=
  pollLoop query job_id 0 max_retries

/-- Claim C1: for every call to generate whose successive poll results have
statuses `[waiting (1), processing (2), completed (5)]`, generate returns the
completed poll result, having made exactly 3 poll (`query_job`) calls and
slept exactly 2 times, sleeping only after a poll whose status is neither 5
nor 4. -/
theorem generate_waiting_processing_completed
    (query : Nat → ImageGenerationResult) (job_id : String) (n : Nat)
    (h0 : (query 0).status_code = "1")
    (h1 : (query 1).status_code = "2")
    (h2 : (query 2).status_code = "5")
    (hn : 3 ≤ n) :
    generate_image_intern job_id query n = ⟨Except.ok (query 2), 3, 2⟩ := by
  obtain ⟨m, rfl⟩ : ∃ m, n = m + 3 := ⟨n - 3, by omega⟩
  simp [generate_image_intern, pollLoop, ImageGenerationResult.is_completed,
    ImageGenerationResult.is_failed, h0, h1, h2]

/-- Witness for C1 at a concrete poll sequence. -/
theorem generate_waiting_processing_completed_witness :
    generate_image_intern "job-1"
      (fun i => ⟨"job-1", toString (if i == 0 then 1 else if i == 1 then 2 else 5),
        "", ["u"], none, none, none, none, none⟩) 3 =
      ⟨Except.ok ⟨"job-1", "5", "", ["u"], none, none, none, none, none⟩, 3, 2⟩ := by
  have h := generate_waiting_processing_completed
    (fun i => ⟨"job-1", toString (if i == 0 then 1 else if i == 1 then 2 else 5),
      "", ["u"], none, none, none, none, none⟩) "job-1" 3
    (by decide) (by decide) (by decide) (by decide)
  simpa using h

/-- Helper for the timeout claim: a run of the polling loop all of whose
observed poll results are non-terminal exhausts its fuel, making one poll and
one sleep per iteration, and raises the timeout exception naming the job id. -/
theorem pollLoop_timeout (query : Nat → ImageGenerationResult) (job_id : String) :
    ∀ (n i0 : Nat),
      (∀ j, j < n → (query (i0 + j)).status_code ≠ "5" ∧
        (query (i0 + j)).status_code ≠ "4") →
      pollLoop query job_id i0 n =
        ⟨Except.error ("等待任务完成超时，JobId: " ++ job_id), n, n⟩ := by
  intro n
  induction n with
  | zero => intro i0 _; rfl
  | succ m ih =>
    intro i0 h
    have h0 := h 0 (Nat.succ_pos m)
    have hc : (query i0).is_completed = false := by
      simp [ImageGenerationResult.is_completed]
      simpa using h0.1
    have hf : (query i0).is_failed = false := by
      simp [ImageGenerationResult.is_failed]
      simpa using h0.2
    have hrest := ih (i0 + 1) (fun j hj => by
      have := h (j + 1) (Nat.succ_lt_succ hj)
      simpa [Nat.add_assoc, Nat.add_comm 1 j] using this)
    simp [pollLoop, hc, hf, hrest]

/-- Claim C2: for every call to generate with `max_polls = 3` whose poll
results never have status 4 or 5, generate raises a timeout failure whose
message names the submitted job identifier (the message is the timeout text
followed by the job id), after making exactly 3 poll calls. -/
theorem generate_timeout_after_three_polls
    (query : Nat → ImageGenerationResult) (job_id : String)
    (h : ∀ i, i < 3 → (query i).status_code ≠ "5" ∧ (query i).status_code ≠ "4") :
    generate_image_intern job_id query 3 =
      ⟨Except.error ("等待任务完成超时，JobId: " ++ job_id), 3, 3⟩ := by
  exact pollLoop_timeout query job_id 3 0 (fun j hj => by simpa using h j hj)

/-- Witness for C2 at a concrete poll sequence that stays in status 1. -/
theorem generate_timeout_after_three_polls_witness :
    generate_image_intern "job-2"
      (fun _ => ⟨"job-2", "1", "排队中", [], none, none, none, none, none⟩) 3 =
      ⟨Except.error ("等待任务完成超时，JobId: " ++ "job-2"), 3, 3⟩ :=
  generate_timeout_after_three_polls
    (fun _ => ⟨"job-2", "1", "排队中", [], none, none, none, none, none⟩) "job-2"
    (by
      intro i _
      show ("1" : String) ≠ "5" ∧ ("1" : String) ≠ "4"
      decide)

/-- Claim C3: for every call to generate whose successive poll results have
statuses `[processing (2), failed (4)]`, generate aborts on the second poll
with a failure carrying the remote error code and error message, makes no
further poll calls (exactly 2 polls), and has slept exactly once. -/
theorem generate_aborts_on_failed_poll
    (query : Nat → ImageGenerationResult) (job_id : String) (n : Nat)
    (h0 : (query 0).status_code = "2")
    (h1 : (query 1).status_code = "4")
    (hn : 2 ≤ n) :
    generate_image_intern job_id query n =
      ⟨Except.error ("任务处理失败: " ++ pyStrOfOpt (query 1).error_code ++ " - " ++
        pyStrOfOpt (query 1).error_msg), 2, 1⟩ := by
  obtain ⟨m, rfl⟩ : ∃ m, n = m + 2 := ⟨n - 2, by omega⟩
  simp [generate_image_intern, pollLoop, ImageGenerationResult.is_completed,
    ImageGenerationResult.is_failed, h0, h1]

/-- Witness for C3 at a concrete poll sequence. -/
theorem generate_aborts_on_failed_poll_witness :
    generate_image_intern "job-3"
      (fun i => if i == 0 then ⟨"job-3", "2", "处理中", [], none, none, none, none, none⟩
        else ⟨"job-3", "4", "处理失败", [], some "InternalError", some "boom",
          none, none, none⟩) 60 =
      ⟨Except.error ("任务处理失败: " ++ "InternalError" ++ " - " ++ "boom"), 2, 1⟩ := by
  have h := generate_aborts_on_failed_poll
    (fun i => if i == 0 then ⟨"job-3", "2", "处理中", [], none, none, none, none, none⟩
      else ⟨"job-3", "4", "处理失败", [], some "InternalError", some "boom",
        none, none, none⟩) "job-3" 60 (by decide) (by decide) (by decide)
  simpa [pyStrOfOpt] using h

/-- Upload outcome (`UploadResult` dataclass in `image_uploader.py`). -/
structure UploadResult where
  success : Bool
  url : Option String := none
  delete_url : Option String := none
  error : Option String := none
deriving DecidableEq, Repr

/-- Lookup in the client's upload cache `_uploaded_urls` (a Python dict,
modelled as an association list whose most recent binding comes first). -/
def lookupCache (cache : List (String × String)) (key : String) : Option String :=
  match cache with
  | [] => none
  | (k, v) :: rest => if k = key then some v else lookupCache rest key

/-- Python's `s.startswith(p)` on strings, modelled character by character. -/
def strStartsWith (s p : String) : Bool :=
  p.data.isPrefixOf s.data

/-- `HunyuanImageClient._is_url`: prefix test for `http://` / `https://`. -/
def _is_url (path : String) : Bool :=
  strStartsWith path "http://" || strStartsWith path "https://"

/-- `HunyuanImageClient._upload_local_image`, with the filesystem
canonicalization `str(Path(p).resolve())` supplied by the oracle `resolve`
and the upload backend (`upload_image` with the client's COS configuration)
supplied by the oracle `backend`.  Returns the outcome (the URL, or the
raised exception's message), the cache after the call, and the number of
backend invocations made (0 on a cache hit, 1 otherwise). -/
def _upload_local_image (resolve : String → String) (backend : String → UploadResult)
    (cache : List (String × String)) (file_path : String) :
    Except String String × List (String × String) × Nat :=
  let abs_path := resolve file_path
  match lookupCache cache abs_path with
  | some url => (Except.ok url, cache, 0)
  | none =>
    let result := backend file_path
    if !result.success || !pyTruthyOptStr result.url then
      (Except.error ("图片上传失败: " ++ pyOrStr result.error "未获取到URL"), cache, 1)
    else
      let url := result.url.getD ""
      (Except.ok url, (abs_path, url) :: cache, 1)

/-- The per-entry image resolution step of `HunyuanImageClient.submit_job`:
a URL (by `_is_url`) passes through unchanged, anything else goes through
`_upload_local_image`. -/
def resolve_reference_image (resolve : String → String)
    (backend : String → UploadResult) (cache : List (String × String))
    (img : String) : Except String String × List (String × String) × Nat :=
  if _is_url img then (Except.ok img, cache, 0)
  else _upload_local_image resolve backend cache img

/-- Claim C6: for every input string to the resolver beginning with
`http://` or `https://`, the resolver returns that string unchanged and
performs no I/O: no upload backend invocation and no cache mutation. -/
theorem resolver_passes_urls_through
    (resolve : String → String) (backend : String → UploadResult)
    (cache : List (String × String)) (img : String)
    (h : strStartsWith img "http://" = true ∨ strStartsWith img "https://" = true) :
    resolve_reference_image resolve backend cache img = (Except.ok img, cache, 0) := by
  have hurl : _is_url img = true := by
    cases h with
    | inl h => simp [_is_url, h]
    | inr h => simp [_is_url, h]
  simp [resolve_reference_image, hurl]

/-- Witness for C6 at a concrete `https://` URL. -/
theorem resolver_passes_urls_through_witness :
    resolve_reference_image (fun p => p) (fun _ => ⟨false, none, none, none⟩) []
      "https://example.com/cat.png" =
      (Except.ok "https://example.com/cat.png", [], 0) :=
  resolver_passes_urls_through (fun p => p) (fun _ => ⟨false, none, none, none⟩) []
    "https://example.com/cat.png" (Or.inr (by decide))

/-- Claim C10: a failed upload never populates the resolver's cache: when the
backend reports a non-success outcome or returns no URL (Python-falsy), the
call raises (returns an error) with the cache unchanged after one backend
invocation, and a subsequent resolution request for the same path behaves
identically, attempting the upload again. -/
theorem failed_upload_never_caches
    (resolve : String → String) (backend : String → UploadResult)
    (cache : List (String × String)) (p : String)
    (hmiss : lookupCache cache (resolve p) = none)
    (hfail : (backend p).success = false ∨ pyTruthyOptStr (backend p).url = false) :
    (∃ e, _upload_local_image resolve backend cache p = (Except.error e, cache, 1)) ∧
    _upload_local_image resolve backend
        ((_upload_local_image resolve backend cache p).2.1) p =
      _upload_local_image resolve backend cache p := by
  have hcond : (!(backend p).success || !pyTruthyOptStr (backend p).url) = true := by
    rcases hfail with h | h <;> simp [h]
  refine ⟨⟨"图片上传失败: " ++ pyOrStr (backend p).error "未获取到URL", ?_⟩, ?_⟩ <;>
    simp [_upload_local_image, hmiss, hcond]

/-- Witness for C10 with a backend that always fails. -/
theorem failed_upload_never_caches_witness :
    (∃ e, _upload_local_image (fun q => q) (fun _ => ⟨false, none, none, some "boom"⟩)
      [] "a.png" = (Except.error e, [], 1)) ∧
    _upload_local_image (fun q => q) (fun _ => ⟨false, none, none, some "boom"⟩)
        ((_upload_local_image (fun q => q) (fun _ => ⟨false, none, none, some "boom"⟩)
          [] "a.png").2.1) "a.png" =
      _upload_local_image (fun q => q) (fun _ => ⟨false, none, none, some "boom"⟩)
        [] "a.png" :=
  failed_upload_never_caches (fun q => q) (fun _ => ⟨false, none, none, some "boom"⟩)
    [] "a.png" rfl (Or.inl rfl)

/-- Whether an `Except` outcome is a success. -/
def exceptIsOk {ε α : Type} : Except ε α → Bool
  | Except.ok _ => true
  | Except.error _ => false

/-- Number of successful backend uploads performed for absolute path `a`
while serving a sequence of resolution requests in order, threading the
cache from one request to the next. -/
def succUploadsFor (resolve : String → String) (backend : String → UploadResult)
    (a : String) : List (String × String) → List String → Nat
  | _, [] => 0
  | cache, p :: ps =>
    (if resolve p = a ∧ (_upload_local_image resolve backend cache p).2.2 = 1 ∧
        exceptIsOk (_upload_local_image resolve backend cache p).1 = true then 1 else 0) +
      succUploadsFor resolve backend a
        (_upload_local_image resolve backend cache p).2.1 ps

/-- Helper: a cache hit returns the cached URL with no backend invocation
and no cache change. -/
theorem upload_cache_hit (resolve : String → String) (backend : String → UploadResult)
    (cache : List (String × String)) (p u : String)
    (h : lookupCache cache (resolve p) = some u) :
    _upload_local_image resolve backend cache p = (Except.ok u, cache, 0) := by
  simp [_upload_local_image, h]

/-- Helper: on a cache miss with a backend outcome the code treats as
failed, the call returns the upload-failure error, leaves the cache
unchanged, and has invoked the backend once. -/
theorem upload_eq_fail (resolve : String → String) (backend : String → UploadResult)
    (cache : List (String × String)) (p : String)
    (hl : lookupCache cache (resolve p) = none)
    (hc : (!(backend p).success || !pyTruthyOptStr (backend p).url) = true) :
    _upload_local_image resolve backend cache p =
      (Except.error ("图片上传失败: " ++ pyOrStr (backend p).error "未获取到URL"), cache, 1) := by
  simp [_upload_local_image, hl, hc]

/-- Helper: on a cache miss with a successful backend outcome, the call
returns the backend URL and binds the resolved path to it in the cache. -/
theorem upload_eq_success (resolve : String → String) (backend : String → UploadResult)
    (cache : List (String × String)) (p : String)
    (hl : lookupCache cache (resolve p) = none)
    (hc : (!(backend p).success || !pyTruthyOptStr (backend p).url) = false) :
    _upload_local_image resolve backend cache p =
      (Except.ok ((backend p).url.getD ""),
        (resolve p, (backend p).url.getD "") :: cache, 1) := by
  simp [_upload_local_image, hl, hc]

/-- Helper: a successful call leaves the resolved path bound to the returned
URL in the resulting cache. -/
theorem upload_ok_cached (resolve : String → String) (backend : String → UploadResult)
    (cache cache' : List (String × String)) (p u : String) (k : Nat)
    (h : _upload_local_image resolve backend cache p = (Except.ok u, cache', k)) :
    lookupCache cache' (resolve p) = some u := by
  rcases hl : lookupCache cache (resolve p) with _ | v
  · by_cases hc : (!(backend p).success || !pyTruthyOptStr (backend p).url) = true
    · rw [upload_eq_fail resolve backend cache p hl hc] at h
      simp at h
    · rw [Bool.not_eq_true] at hc
      rw [upload_eq_success resolve backend cache p hl hc] at h
      simp only [Prod.mk.injEq, Except.ok.injEq] at h
      rw [← h.2.1, lookupCache]
      simp [h.1]
  · rw [upload_cache_hit resolve backend cache p v hl] at h
    simp only [Prod.mk.injEq, Except.ok.injEq] at h
    rw [← h.2.1, hl, h.1]

/-- Helper: existing cache bindings survive any call. -/
theorem upload_cache_monotone (resolve : String → String)
    (backend : String → UploadResult) (cache : List (String × String))
    (p key u : String) (h : lookupCache cache key = some u) :
    lookupCache ((_upload_local_image resolve backend cache p).2.1) key = some u := by
  rcases hl : lookupCache cache (resolve p) with _ | v
  · by_cases hc : (!(backend p).success || !pyTruthyOptStr (backend p).url) = true
    · rw [upload_eq_fail resolve backend cache p hl hc]
      exact h
    · rw [Bool.not_eq_true] at hc
      rw [upload_eq_success resolve backend cache p hl hc]
      have hne : resolve p ≠ key := by
        intro he; rw [he, h] at hl; exact Option.noConfusion hl
      simpa [lookupCache, hne] using h
  · rw [upload_cache_hit resolve backend cache p v hl]
    exact h

/-- Helper: once the cache holds a URL for absolute path `a`, serving any
further request sequence performs no successful backend upload for `a`. -/
theorem succUploadsFor_zero_of_cached (resolve : String → String)
    (backend : String → UploadResult) (a : String) :
    ∀ (reqs : List String) (cache : List (String × String)) (u : String),
      lookupCache cache a = some u →
      succUploadsFor resolve backend a cache reqs = 0 := by
  intro reqs
  induction reqs with
  | nil => intro cache u _; rfl
  | cons p ps ih =>
    intro cache u h
    by_cases hpa : resolve p = a
    · have hhit : lookupCache cache (resolve p) = some u := by rw [hpa]; exact h
      have heq := upload_cache_hit resolve backend cache p u hhit
      simp [succUploadsFor, heq, ih cache u h]
    · have hmono := upload_cache_monotone resolve backend cache p a u h
      simp [succUploadsFor, hpa,
        ih ((_upload_local_image resolve backend cache p).2.1) u hmono]

/-- Helper: over any request sequence served in order from any starting
cache, at most one successful backend upload happens for a given path. -/
theorem succUploadsFor_le_one (resolve : String → String)
    (backend : String → UploadResult) (a : String) :
    ∀ (reqs : List String) (cache : List (String × String)),
      succUploadsFor resolve backend a cache reqs ≤ 1 := by
  intro reqs
  induction reqs with
  | nil => intro cache; simp [succUploadsFor]
  | cons p ps ih =>
    intro cache
    by_cases hcond : resolve p = a ∧
        (_upload_local_image resolve backend cache p).2.2 = 1 ∧
        exceptIsOk (_upload_local_image resolve backend cache p).1 = true
    · obtain ⟨hpa, hk, hok⟩ := hcond
      rcases hu : (_upload_local_image resolve backend cache p).1 with e | u
      · rw [hu] at hok
        exact absurd hok (by simp [exceptIsOk])
      · have hr : _upload_local_image resolve backend cache p =
            (Except.ok u, (_upload_local_image resolve backend cache p).2) := by
          rw [← hu]
        have hcached := upload_ok_cached resolve backend cache
          (_upload_local_image resolve backend cache p).2.1 p u
          (_upload_local_image resolve backend cache p).2.2 hr
        have hcacheda : lookupCache
            ((_upload_local_image resolve backend cache p).2.1) a = some u := by
          rw [← hpa]; exact hcached
        have htail := succUploadsFor_zero_of_cached resolve backend a ps
          ((_upload_local_image resolve backend cache p).2.1) u hcacheda
        simp only [succUploadsFor]
        rw [if_pos ⟨hpa, hk, hok⟩, htail]
    · simp only [succUploadsFor]
      rw [if_neg hcond]
      simpa using ih ((_upload_local_image resolve backend cache p).2.1)

/-- Claim C4: once a local path's upload has succeeded, a second resolution
request for the same absolute canonical path returns the identical URL from
the cache with no backend invocation and no cache change; and over any
request sequence within one client lifetime, at most one successful backend
upload is performed per distinct absolute path. -/
theorem upload_memoization (resolve : String → String)
    (backend : String → UploadResult) :
    (∀ (cache : List (String × String)) (p url : String)
        (cache' : List (String × String)) (k : Nat),
      _upload_local_image resolve backend cache p = (Except.ok url, cache', k) →
      ∀ p2, resolve p2 = resolve p →
        _upload_local_image resolve backend cache' p2 = (Except.ok url, cache', 0)) ∧
    (∀ (a : String) (cache : List (String × String)) (reqs : List String),
      succUploadsFor resolve backend a cache reqs ≤ 1) := by
  constructor
  · intro cache p url cache' k h p2 hp2
    have hcached := upload_ok_cached resolve backend cache cache' p url k h
    have hc2 : lookupCache cache' (resolve p2) = some url := by
      rw [hp2]; exact hcached
    exact upload_cache_hit resolve backend cache' p2 url hc2
  · intro a cache reqs
    exact succUploadsFor_le_one resolve backend a reqs cache

/-- Witness for C4: after one successful upload of `a.png`, resolving the
same path again returns the cached URL with zero backend invocations. -/
theorem upload_memoization_witness :
    _upload_local_image (fun q => q)
      (fun _ => ⟨true, some "https://u/1", none, none⟩)
      [("a.png", "https://u/1")] "a.png" =
      (Except.ok "https://u/1", [("a.png", "https://u/1")], 0) :=
  (upload_memoization (fun q => q)
      (fun _ => ⟨true, some "https://u/1", none, none⟩)).1
    [] "a.png" "https://u/1" [("a.png", "https://u/1")] 1 (by rfl) "a.png" rfl

/-- The reference-image processing loop of `HunyuanImageClient.submit_job`:
each entry is resolved in order (URLs pass through, local paths are uploaded
via `_upload_local_image`), threading the cache; an upload exception aborts
the whole submission.  Returns the processed URL list, the final cache, and
the total number of backend invocations. -/
def process_images (resolve : String → String) (backend : String → UploadResult) :
    List (String × String) → List String →
    Except String (List String × List (String × String) × Nat)
  | cache, [] => Except.ok ([], cache, 0)
  | cache, img :: rest =>
    match resolve_reference_image resolve backend cache img with
    | (Except.error e, _, _) => Except.error e
    | (Except.ok url, cache1, k1) =>
      match process_images resolve backend cache1 rest with
      | Except.error e => Except.error e
      | Except.ok (urls, cache2, k2) => Except.ok (url :: urls, cache2, k1 + k2)

/-- The request body assembled by `HunyuanImageClient.submit_job` and
serialized into the `SubmitTextToImageJob` request (`Images` and `Seed` are
set only when present, mirroring the Python dict). -/
structure SubmitBody where
  Prompt : String
  Resolution : String
  LogoAdd : Int
  Revise : Int
  Images : Option (List String) := none
  Seed : Option Int := none
deriving DecidableEq, Repr

/-- `HunyuanImageClient.submit_job` up to the assembled request body: the
`Images` key is set to the processed list only when `images` is Python-truthy
(not `None` and not empty); `Seed` is set only when `seed is not None`.
Returns the body, the cache after any uploads, and the number of backend
invocations; an upload exception propagates. -/
def submit_job (resolve : String → String) (backend : String → UploadResult)
    (cache : List (String × String)) (prompt resolution : String)
    (images : Option (List String)) (seed : Option Int) (logo_add revise : Int) :
    Except String (SubmitBody × List (String × String) × Nat) :=
  let base : SubmitBody := ⟨prompt, resolution, logo_add, revise, none, none⟩
  let addSeed : SubmitBody → SubmitBody := fun b =>
    if seed.isSome then { b with Seed := seed } else b
  match images with
  | none => Except.ok (addSeed base, cache, 0)
  | some imgs =>
    if imgs.isEmpty then Except.ok (addSeed base, cache, 0)
    else
      match process_images resolve backend cache imgs with
      | Except.error e => Except.error e
      | Except.ok (urls, cache', k) =>
        Except.ok (addSeed { base with Images := some urls }, cache', k)

/-- Helper: a successful run of the reference-image loop yields one output
URL per input entry in order: URL entries pass through unchanged, and every
other entry is replaced by a URL obtained from `_upload_local_image` for
that entry (from the cache state then in effect). -/
theorem process_images_spec (resolve : String → String)
    (backend : String → UploadResult) :
    ∀ (imgs : List String) (cache : List (String × String)) (urls : List String)
      (cache' : List (String × String)) (k : Nat),
      process_images resolve backend cache imgs = Except.ok (urls, cache', k) →
      urls.length = imgs.length ∧
      ∀ (i : Nat) (hi : i < imgs.length) (hi' : i < urls.length),
        (_is_url (imgs.get ⟨i, hi⟩) = true → urls.get ⟨i, hi'⟩ = imgs.get ⟨i, hi⟩) ∧
        (_is_url (imgs.get ⟨i, hi⟩) = false →
          ∃ (c c' : List (String × String)) (k' : Nat),
            _upload_local_image resolve backend c (imgs.get ⟨i, hi⟩) =
              (Except.ok (urls.get ⟨i, hi'⟩), c', k')) := by
  intro imgs
  induction imgs with
  | nil =>
    intro cache urls cache' k h
    simp only [process_images, Except.ok.injEq, Prod.mk.injEq] at h
    refine ⟨by rw [← h.1], ?_⟩
    intro i hi
    exact absurd hi (Nat.not_lt_zero i)
  | cons img rest ih =>
    intro cache urls cache' k h
    rcases h1 : resolve_reference_image resolve backend cache img with ⟨out1, c1, k1⟩
    rcases out1 with e | url
    · rw [process_images, h1] at h
      exact Except.noConfusion h
    · rw [process_images, h1] at h
      dsimp only at h
      rcases h2 : process_images resolve backend c1 rest with e2 | ⟨urls2, c2, k2⟩
      · rw [h2] at h
        exact Except.noConfusion h
      · rw [h2] at h
        simp only [Except.ok.injEq, Prod.mk.injEq] at h
        obtain ⟨hurls, hc, hk⟩ := h
        obtain ⟨hlen, hrest⟩ := ih c1 urls2 c2 k2 h2
        subst hurls
        refine ⟨by simp [hlen], ?_⟩
        intro i hi hi'
        cases i with
        | zero =>
          have hget : (img :: rest).get ⟨0, hi⟩ = img := rfl
          rw [hget]
          constructor
          · intro hurl
            have heq : resolve_reference_image resolve backend cache img =
                (Except.ok img, cache, 0) := by
              simp [resolve_reference_image, hurl]
            rw [h1] at heq
            simp only [Prod.mk.injEq, Except.ok.injEq] at heq
            exact heq.1
          · intro hurl
            refine ⟨cache, c1, k1, ?_⟩
            show _upload_local_image resolve backend cache img =
              (Except.ok url, c1, k1)
            rw [← h1]
            simp [resolve_reference_image, hurl]
        | succ j =>
          have hj : j < rest.length := by simpa using hi
          have hj' : j < urls2.length := by simpa using hi'
          simpa [List.get] using hrest j hj hj'

/-- Claim C7: `submit_job` performs no local validation of the
reference-image count: for every list of reference images (including lists
longer than the documented limit of 3), every entry is resolved (URLs pass
through, local paths are replaced by their uploaded URL), the resulting list
preserves the input order and length, and the full list is forwarded in the
request body's `Images` field as-is. -/
theorem submit_forwards_reference_images
    (resolve : String → String) (backend : String → UploadResult)
    (cache : List (String × String)) (prompt resolution : String)
    (imgs : List String) (seed : Option Int) (logo_add revise : Int)
    (body : SubmitBody) (cache' : List (String × String)) (k : Nat)
    (hne : imgs ≠ [])
    (h : submit_job resolve backend cache prompt resolution (some imgs) seed
      logo_add revise = Except.ok (body, cache', k)) :
    ∃ urls, body.Images = some urls ∧ urls.length = imgs.length ∧
      ∀ (i : Nat) (hi : i < imgs.length) (hi' : i < urls.length),
        (_is_url (imgs.get ⟨i, hi⟩) = true → urls.get ⟨i, hi'⟩ = imgs.get ⟨i, hi⟩) ∧
        (_is_url (imgs.get ⟨i, hi⟩) = false →
          ∃ (c c' : List (String × String)) (k' : Nat),
            _upload_local_image resolve backend c (imgs.get ⟨i, hi⟩) =
              (Except.ok (urls.get ⟨i, hi'⟩), c', k')) := by
  have hempty : imgs.isEmpty = false := by
    cases imgs with
    | nil => exact absurd rfl hne
    | cons a l => rfl
  rw [submit_job] at h
  simp only [hempty, Bool.false_eq_true, if_false] at h
  rcases hp : process_images resolve backend cache imgs with e | ⟨urls, c2, k2⟩
  · rw [hp] at h
    exact Except.noConfusion h
  · rw [hp] at h
    simp only [Except.ok.injEq, Prod.mk.injEq] at h
    obtain ⟨hbody, _, _⟩ := h
    obtain ⟨hlen, hpt⟩ := process_images_spec resolve backend imgs cache urls c2 k2 hp
    refine ⟨urls, ?_, hlen, hpt⟩
    rw [← hbody]
    cases hs : seed.isSome <;> simp [hs]

/-- Witness for C7: four reference URLs (one more than the documented limit
of 3) are all forwarded unchanged in the request body. -/
theorem submit_forwards_reference_images_witness :
    ∃ urls, (⟨"p", "1024:1024", 1, 1,
        some ["https://a", "https://b", "https://c", "https://d"],
        none⟩ : SubmitBody).Images = some urls ∧
      urls.length = ["https://a", "https://b", "https://c", "https://d"].length ∧
      ∀ (i : Nat) (hi : i < ["https://a", "https://b", "https://c",
          "https://d"].length)
        (hi' : i < urls.length),
        (_is_url (["https://a", "https://b", "https://c", "https://d"].get ⟨i, hi⟩) =
            true →
          urls.get ⟨i, hi'⟩ =
            ["https://a", "https://b", "https://c", "https://d"].get ⟨i, hi⟩) ∧
        (_is_url (["https://a", "https://b", "https://c", "https://d"].get ⟨i, hi⟩) =
            false →
          ∃ (c c' : List (String × String)) (k' : Nat),
            _upload_local_image (fun q => q) (fun _ => ⟨false, none, none, none⟩) c
              (["https://a", "https://b", "https://c", "https://d"].get ⟨i, hi⟩) =
              (Except.ok (urls.get ⟨i, hi'⟩), c', k')) :=
  submit_forwards_reference_images (fun q => q) (fun _ => ⟨false, none, none, none⟩)
    [] "p" "1024:1024" ["https://a", "https://b", "https://c", "https://d"]
    none 1 1
    ⟨"p", "1024:1024", 1, 1,
      some ["https://a", "https://b", "https://c", "https://d"], none⟩
    [] 0 (by decide) (by rfl)

/-- Remote response of the `QueryTextToImageJob` API as read by
`HunyuanImageClient.query_job` (each field may be absent/None). -/
structure QueryResponse where
  JobStatusCode : Option String := none
  JobStatusMsg : Option String := none
  ResultImage : Option (List String) := none
  JobErrorCode : Option String := none
  JobErrorMsg : Option String := none
  ResultDetails : Option (List String) := none
  RevisedPrompt : Option (List String) := none
  RequestId : Option String := none
deriving DecidableEq, Repr

/-- `HunyuanImageClient.query_job`: the pure mapping from the remote
response to an `ImageGenerationResult` (`resp.X or default` for each field). -/
def query_job (job_id : String) (resp : QueryResponse) : ImageGenerationResult :=
  { job_id := job_id
    status_code := pyOrStr resp.JobStatusCode ""
    status_msg := pyOrStr resp.JobStatusMsg ""
    image_urls := pyOrList resp.ResultImage
    error_code := pyOrNone resp.JobErrorCode
    error_msg := pyOrNone resp.JobErrorMsg
    result_details := resp.ResultDetails
    revised_prompt := resp.RevisedPrompt
    request_id := resp.RequestId }

/-- Helper: the only way `query_job`'s status code equals a non-empty
literal is for the response to carry exactly that code. -/
theorem pyOrStr_empty_eq (x : Option String) (v : String)
    (hv : v ≠ "") (h : pyOrStr x "" = v) : x = some v := by
  rcases x with _ | s
  · exact absurd h.symm hv
  · dsimp only [pyOrStr] at h
    by_cases hs : s.isEmpty
    · rw [if_pos hs] at h
      exact absurd h.symm hv
    · rw [if_neg hs] at h
      rw [h]

/-- Claim C5: under the remote API contract — a status-5 response carries a
non-empty image list, a status-4 response carries non-empty error code and
message — every `query_job` result with status code 5 has a non-empty
image-URL list, and every result with status code 4 has a populated error
code and error message. -/
theorem query_job_terminal_invariants
    (job_id : String) (resp : QueryResponse)
    (h5 : resp.JobStatusCode = some "5" →
      ∃ l, resp.ResultImage = some l ∧ l ≠ [])
    (h4 : resp.JobStatusCode = some "4" →
      (∃ c, resp.JobErrorCode = some c ∧ c ≠ "") ∧
      (∃ m, resp.JobErrorMsg = some m ∧ m ≠ "")) :
    ((query_job job_id resp).status_code = "5" →
      (query_job job_id resp).image_urls ≠ []) ∧
    ((query_job job_id resp).status_code = "4" →
      (query_job job_id resp).error_code.isSome = true ∧
      (query_job job_id resp).error_msg.isSome = true) := by
  constructor
  · intro h
    have hs : resp.JobStatusCode = some "5" :=
      pyOrStr_empty_eq resp.JobStatusCode "5" (by decide) h
    obtain ⟨l, hl, hne⟩ := h5 hs
    simpa [query_job, pyOrList, hl] using hne
  · intro h
    have hs : resp.JobStatusCode = some "4" :=
      pyOrStr_empty_eq resp.JobStatusCode "4" (by decide) h
    obtain ⟨⟨c, hc, hcne⟩, ⟨m, hm, hmne⟩⟩ := h4 hs
    constructor
    · simp [query_job, pyOrNone, hc, String.isEmpty_iff, hcne]
    · simp [query_job, pyOrNone, hm, String.isEmpty_iff, hmne]

/-- Witness for C5 at a concrete completed response. -/
theorem query_job_terminal_invariants_witness :
    ((query_job "job-5" ⟨some "5", some "ok", some ["https://img/1"], none, none,
        none, none, some "rid"⟩).status_code = "5" →
      (query_job "job-5" ⟨some "5", some "ok", some ["https://img/1"], none, none,
        none, none, some "rid"⟩).image_urls ≠ []) ∧
    ((query_job "job-5" ⟨some "5", some "ok", some ["https://img/1"], none, none,
        none, none, some "rid"⟩).status_code = "4" →
      (query_job "job-5" ⟨some "5", some "ok", some ["https://img/1"], none, none,
        none, none, some "rid"⟩).error_code.isSome = true ∧
      (query_job "job-5" ⟨some "5", some "ok", some ["https://img/1"], none, none,
        none, none, some "rid"⟩).error_msg.isSome = true) :=
  query_job_terminal_invariants "job-5"
    ⟨some "5", some "ok", some ["https://img/1"], none, none, none, none, some "rid"⟩
    (fun _ => ⟨["https://img/1"], rfl, by decide⟩)
    (fun h => absurd h (by decide))

/-- Outcome of the HTTP POST performed by an uploader, as the `try` block of
`image_uploader.py` distinguishes it: a timeout, a request exception, any
other exception (including malformed response JSON), or a parsed response. -/
inductive HttpResult (ρ : Type) where
  | timeout
  | requestError (e : String)
  | otherError (e : String)
  | response (r : ρ)
deriving DecidableEq, Repr

/-- Parsed SM.MS response as branched on by `SmMsUploader.upload`:
`success` truthy, `code == "image_repeated"`, or anything else (with an
optional `message`). -/
inductive SmMsResponse where
  | success (url : String) (delete : Option String)
  | repeated (images : String)
  | failed (message : Option String)
deriving DecidableEq, Repr

/-- Parsed ImgBB response as branched on by `ImgBBUploader.upload`. -/
inductive ImgBBResponse where
  | success (url : String) (delete : Option String)
  | failed (message : Option String)
deriving DecidableEq, Repr

/-- Outcome of the COS SDK interaction in `TencentCOSUploader.upload`: the
SDK import failing, `put_object` raising, or the upload succeeding. -/
inductive CosOutcome where
  | importError
  | putError (e : String)
  | putOk
deriving DecidableEq, Repr

/-- `SmMsUploader.upload`, with the filesystem (path to file size, `none`
when missing) and the HTTP outcome supplied by oracles.  The Python renders
the oversize message with the size in MB to two decimals; the float
formatting is abstracted to the raw byte count in the message text. -/
def SmMs_upload (fs : String → Option Nat) (http : HttpResult SmMsResponse)
    (file_path : String) : UploadResult :=
  match fs file_path with
  | none => ⟨false, none, none, some ("文件不存在: " ++ file_path)⟩
  | some size =>
    if size > 5 * 1024 * 1024 then
      ⟨false, none, none, some ("文件大小超过5MB限制: " ++ toString size)⟩
    else
      match http with
      | .timeout => ⟨false, none, none, some "上传超时"⟩
      | .requestError e => ⟨false, none, none, some ("网络请求失败: " ++ e)⟩
      | .otherError e => ⟨false, none, none, some ("上传失败: " ++ e)⟩
      | .response (.success url d) => ⟨true, some url, d, none⟩
      | .response (.repeated images) =>
        ⟨true, some images, none, some "图片已存在，返回已有URL"⟩
      | .response (.failed m) =>
        ⟨false, none, none, some (m.getD "上传失败，未知错误")⟩

/-- `ImgBBUploader.upload`, with filesystem and HTTP outcome oracles. -/
def ImgBB_upload (fs : String → Option Nat) (http : HttpResult ImgBBResponse)
    (file_path : String) : UploadResult :=
  match fs file_path with
  | none => ⟨false, none, none, some ("文件不存在: " ++ file_path)⟩
  | some _ =>
    match http with
    | .timeout => ⟨false, none, none, some "上传超时"⟩
    | .requestError e => ⟨false, none, none, some ("网络请求失败: " ++ e)⟩
    | .otherError e => ⟨false, none, none, some ("上传失败: " ++ e)⟩
    | .response (.success url d) => ⟨true, some url, d, none⟩
    | .response (.failed m) => ⟨false, none, none, some (m.getD "上传失败")⟩

/-- `TencentCOSUploader.upload`, with the SDK outcome, the generated object
key, and the filesystem supplied by oracles.  The import check precedes the
file-existence check, as in the source. -/
def COS_upload (fs : String → Option Nat) (out : CosOutcome)
    (bucket region key : String) (file_path : String) : UploadResult :=
  match out with
  | .importError =>
    ⟨false, none, none, some "未安装COS SDK，请运行: pip install cos-python-sdk-v5"⟩
  | .putError e =>
    match fs file_path with
    | none => ⟨false, none, none, some ("文件不存在: " ++ file_path)⟩
    | some _ => ⟨false, none, none, some ("上传失败: " ++ e)⟩
  | .putOk =>
    match fs file_path with
    | none => ⟨false, none, none, some ("文件不存在: " ++ file_path)⟩
    | some _ =>
      ⟨true, some ("https://" ++ bucket ++ ".cos." ++ region ++
        ".myqcloud.com/" ++ key), none, none⟩

/-- COS configuration dictionary passed to `upload_image`. -/
structure CosConfigM where
  secret_id : String
  secret_key : String
  region : String
  bucket : String
deriving DecidableEq, Repr

/-- The `upload_image` dispatcher of `image_uploader.py`: method selection,
the missing-`api_key` and missing-`cos_config` checks (Python truthiness),
and the unknown-method fallback. -/
def upload_image (fs : String → Option Nat) (smmsHttp : HttpResult SmMsResponse)
    (imgbbHttp : HttpResult ImgBBResponse) (cosOut : CosOutcome) (cosKey : String)
    (method : String) (api_key : Option String) (cos_config : Option CosConfigM)
    (file_path : String) : UploadResult :=
  if method = "smms" then SmMs_upload fs smmsHttp file_path
  else if method = "imgbb" then
    if !pyTruthyOptStr api_key then
      ⟨false, none, none, some "ImgBB需要提供api_key参数"⟩
    else ImgBB_upload fs imgbbHttp file_path
  else if method = "cos" then
    match cos_config with
    | none => ⟨false, none, none, some "COS需要提供cos_config参数"⟩
    | some cfg => COS_upload fs cosOut cfg.bucket cfg.region cosKey file_path
  else ⟨false, none, none, some ("不支持的上传方式: " ++ method)⟩

/-- The tri-state contract on an upload outcome: success implies a URL is
present; failure implies an error message is present and no URL. -/
def uploadResultOk (r : UploadResult) : Prop :=
  (r.success = true → r.url.isSome = true) ∧
  (r.success = false → r.error.isSome = true ∧ r.url = none)

/-- Helper: every SM.MS upload outcome satisfies the tri-state contract. -/
theorem SmMs_upload_ok (fs : String → Option Nat) (http : HttpResult SmMsResponse)
    (p : String) : uploadResultOk (SmMs_upload fs http p) := by
  rcases hfs : fs p with _ | size
  · simp [uploadResultOk, SmMs_upload, hfs]
  · by_cases hsz : size > 5 * 1024 * 1024
    · simp [uploadResultOk, SmMs_upload, hfs, hsz]
    · rcases http with _ | e | e | r
      · simp [uploadResultOk, SmMs_upload, hfs, hsz]
      · simp [uploadResultOk, SmMs_upload, hfs, hsz]
      · simp [uploadResultOk, SmMs_upload, hfs, hsz]
      · rcases r with ⟨url, d⟩ | images | m <;>
          simp [uploadResultOk, SmMs_upload, hfs, hsz]

/-- Helper: every ImgBB upload outcome satisfies the tri-state contract. -/
theorem ImgBB_upload_ok (fs : String → Option Nat) (http : HttpResult ImgBBResponse)
    (p : String) : uploadResultOk (ImgBB_upload fs http p) := by
  rcases hfs : fs p with _ | size
  · simp [uploadResultOk, ImgBB_upload, hfs]
  · rcases http with _ | e | e | r
    · simp [uploadResultOk, ImgBB_upload, hfs]
    · simp [uploadResultOk, ImgBB_upload, hfs]
    · simp [uploadResultOk, ImgBB_upload, hfs]
    · rcases r with ⟨url, d⟩ | m <;> simp [uploadResultOk, ImgBB_upload, hfs]

/-- Helper: every COS upload outcome satisfies the tri-state contract. -/
theorem COS_upload_ok (fs : String → Option Nat) (out : CosOutcome)
    (bucket region key p : String) :
    uploadResultOk (COS_upload fs out bucket region key p) := by
  rcases out with _ | e | _ <;> rcases hfs : fs p with _ | size <;>
    simp [uploadResultOk, COS_upload, hfs]

/-- Claim C8: `upload_image` converts local precondition errors (missing
file), transport errors (timeout, network failure, other exceptions) and
remote-reported errors into a typed `UploadResult` rather than raising (it
is a total function into `UploadResult`), and every result satisfies:
success implies the URL is present, failure implies an error message is
present and the URL is absent. -/
theorem upload_image_invariant (fs : String → Option Nat)
    (smmsHttp : HttpResult SmMsResponse) (imgbbHttp : HttpResult ImgBBResponse)
    (cosOut : CosOutcome) (cosKey method : String) (api_key : Option String)
    (cos_config : Option CosConfigM) (file_path : String) :
    uploadResultOk (upload_image fs smmsHttp imgbbHttp cosOut cosKey method
      api_key cos_config file_path) := by
  unfold upload_image
  by_cases h1 : method = "smms"
  · simpa [h1] using SmMs_upload_ok fs smmsHttp file_path
  · by_cases h2 : method = "imgbb"
    · by_cases hkey : pyTruthyOptStr api_key
      · simpa [h1, h2, hkey] using ImgBB_upload_ok fs imgbbHttp file_path
      · simp only [Bool.not_eq_true] at hkey
        simp [uploadResultOk, h1, h2, hkey]
    · by_cases h3 : method = "cos"
      · rcases cos_config with _ | cfg
        · simp [uploadResultOk, h1, h2, h3]
        · simpa [h1, h2, h3] using
            COS_upload_ok fs cosOut cfg.bucket cfg.region cosKey file_path
      · simp [uploadResultOk, h1, h2, h3]

/-- Witness for C8: a missing local file with the SM.MS method yields a
failure result carrying an error message and no URL. -/
theorem upload_image_invariant_witness :
    (upload_image (fun _ => none) HttpResult.timeout HttpResult.timeout
        CosOutcome.putOk "k" "smms" none none "a.png").error.isSome = true ∧
      (upload_image (fun _ => none) HttpResult.timeout HttpResult.timeout
        CosOutcome.putOk "k" "smms" none none "a.png").url = none :=
  (upload_image_invariant (fun _ => none) HttpResult.timeout HttpResult.timeout
    CosOutcome.putOk "k" "smms" none none "a.png").2 rfl

/-- Python truthiness of a plain string: empty is falsy. -/
def pyTruthyStr (s : String) : Bool :=
  !s.isEmpty

/-- The `line_count` coercion on line 83 of `my_file_read_tool.py`:
`int(line_count) if line_count is not None and not "None" else None`.
`not "None"` negates the truthiness of the non-empty literal `"None"`. -/
def coerced_line_count (line_count : Option Int) : Option Int :=
  if line_count.isSome && !pyTruthyStr "None" then line_count else none

/-- The guard of the list comprehension in `MyFileReadTool._run`:
`i >= start_idx and (line_count is None or i < start_idx + line_count)`. -/
def lineSelected (start_idx : Int) (lc : Option Int) (i : Nat) : Bool :=
  decide (start_idx ≤ (i : Int)) &&
    (match lc with
     | none => true
     | some n => decide ((i : Int) < start_idx + n))

/-- The list comprehension of `MyFileReadTool._run`: enumerate the file's
lines from index `i` and keep those passing `lineSelected`. -/
def select_lines (start_idx : Int) (lc : Option Int) :
    Nat → List String → List String
  | _, [] => []
  | i, l :: ls =>
    if lineSelected start_idx lc i then l :: select_lines start_idx lc (i + 1) ls
    else select_lines start_idx lc (i + 1) ls

/-- `MyFileReadTool._run` on a successfully opened file, modelled on the
file's list of lines (each line keeping its terminating newline, so
`file.read()` is the concatenation of the lines): parameter coercion, the
whole-file fast path, the comprehension, the start-line-exceeds-file error,
and the join of the selected lines. -/
def my_file_read_run (fileLines : List String)
    (start_line line_count : Option Int) : String :=
  let sl : Int := start_line.getD 1
  let lc := coerced_line_count line_count
  if sl = 1 ∧ lc = none then String.join fileLines
  else
    let start_idx := max (sl - 1) 0
    let selected := select_lines start_idx lc 0 fileLines
    if selected = [] ∧ 0 < start_idx then
      "Error: Start line " ++ toString sl ++
        " exceeds the number of lines in the file."
    else String.join selected

/-- Helper: with a `None` line count the comprehension keeps exactly the
lines from `start_idx` on. -/
theorem select_lines_none_eq_drop (start_idx : Int) :
    ∀ (ls : List String) (i : Nat),
      select_lines start_idx none i ls = ls.drop (start_idx.toNat - i) := by
  intro ls
  induction ls with
  | nil => intro i; simp [select_lines]
  | cons l ls ih =>
    intro i
    by_cases hle : start_idx ≤ (i : Int)
    · have hsel : lineSelected start_idx none i = true := by
        simp [lineSelected, hle]
      have hz : start_idx.toNat - i = 0 := by omega
      have hz' : start_idx.toNat - (i + 1) = 0 := by omega
      rw [select_lines, if_pos hsel, ih (i + 1), hz, hz']
      rfl
    · have hsel : lineSelected start_idx none i = false := by
        simp [lineSelected, hle]
      have hpos : start_idx.toNat - i = (start_idx.toNat - (i + 1)) + 1 := by omega
      rw [select_lines, if_neg (by simp [hsel]), ih (i + 1), hpos]
      rfl

/-- Claim C9: `MyFileReadTool._run` ignores its `line_count` argument: the
guard `line_count is not None and not "None"` always coerces it to `None`,
so for every file content, start line, and supplied line count, the tool
returns all lines from the start line to the end of the file (or the
start-line-exceeds-file error), independently of `line_count`. -/
theorem file_read_ignores_line_count (fileLines : List String)
    (start_line line_count : Option Int) :
    my_file_read_run fileLines start_line line_count =
      (let sl : Int := start_line.getD 1
       let start_idx := max (sl - 1) 0
       let rest := fileLines.drop start_idx.toNat
       if rest = [] ∧ 0 < start_idx then
         "Error: Start line " ++ toString sl ++
           " exceeds the number of lines in the file."
       else String.join rest) := by
  have hN : pyTruthyStr "None" = true := by decide
  have hlc : coerced_line_count line_count = none := by
    simp [coerced_line_count, hN]
  unfold my_file_read_run
  rw [hlc]
  by_cases hsl : start_line.getD 1 = 1
  · rw [if_pos ⟨hsl, rfl⟩]
    simp [hsl]
  · rw [if_neg (by simp [hsl])]
    simp only [select_lines_none_eq_drop, Nat.sub_zero]
